import Mathlib

/-!
Verification of the sample lookup / upsert reconciliation flow of the
oil-sample collection form (`utils.py` / `streamlit_app.py`).

The Python code is shallowly embedded: dictionaries become association
lists (`dictSet` / `dictUpdate` / `dictGet` mirror Python `d[k] = v`,
`d.update(u)` and `d.get(k, dflt)`), the Google Sheets store becomes an
explicit list of write operations plus an `Except` result, Streamlit
session state becomes the `SessionState` record, and the impure
`datetime.today()` default becomes an explicit `today` parameter.
Cells read from or written to the store are strings; form values are
`Val` (string or boolean), mirroring the `str | bool` values of the
Python response dictionary.
-/

/-- A form value: Python `str` or `bool` as stored in the responses dict. -/
inductive Val where
  | str : String → Val
  | bool : Bool → Val
deriving DecidableEq

/-- Python `d[k] = v` on a dict: replace the binding in place when the
key is present (a Python dict holds each key once), else append it. -/
def dictSet {α : Type} : List (String × α) → String → α → List (String × α)
  | [], k, v => [(k, v)]
  | p :: rest, k, v =>
    if p.1 == k then (k, v) :: rest else p :: dictSet rest k v

/-- Python `d.update(u)`: set every key of `u` in `d`, in order. -/
def dictUpdate {α : Type} (d : List (String × α)) (u : List (String × α)) :
    List (String × α) :=
  u.foldl (fun acc p => dictSet acc p.1 p.2) d

/-- Python `d.get(k, dflt)`. -/
def dictGet {α : Type} (d : List (String × α)) (k : String) (dflt : α) : α :=
  match d.lookup k with
  | some v => v
  | none => dflt

/-- `SHEET_NAME` from `utils.py`. -/
def SHEET_NAME : String := "Geral"

/-- `OS_FORM_LABEL` from `utils.py`. -/
def OS_FORM_LABEL : String := "Ordem de Serviço (O.S.)"

/-- `OS_TARGET_COL` from `utils.py`: column receiving the O.S. value. -/
def OS_TARGET_COL : String := "AH"

/-- `SHEET_HEADERS_EXCL_OS` from `utils.py`: the exact store headers A..AG. -/
def SHEET_HEADERS_EXCL_OS : List String := [
  "Estado de Origem",
  "Cliente",
  "Data da coleta",
  "Local de operação",
  "UGD",
  "Responsável Pela Coleta",
  "n.º da Amostra",
  "n.º de série Equipamento",
  "Frota",
  "Horímetro do Óleo",
  "Houve troca de óleo após coleta?",
  "Troca de Filtro após coleta",
  "Houve mudança do local de operação?",
  "Fabricante",
  "Modelo",
  "Horímetro do Motor",
  "Houve complemento de óleo",
  "Se sim, quantos litros",
  "Amostra coletada",
  "Fabricante do Óleo",
  "Grau de viscosidade",
  "Nome",
  "Apresentou limalha no filtro ou na tela?",
  "Apresentou limalhas no bujão magnético?",
  "Equipamento apresentou ruído anormal?",
  "Existem vazamentos no sistema",
  "A temperatura de operação está normal?",
  "O desempenho do sistema está normal?",
  "Detalhes das anormalidades (caso Haja)",
  "Pessoa de contato",
  "Telefone",
  "Status",
  "Data Status"]

/-- `SHEET_HEADER_TO_FORM` from `utils.py`: store header to form label. -/
def SHEET_HEADER_TO_FORM : List (String × String) := [
  ("Estado de Origem", "Estado de Origem"),
  ("Cliente", "Cliente"),
  ("Data da coleta", "Data da coleta"),
  ("Local de operação", "Local de operação:"),
  ("UGD", "UGD:"),
  ("Responsável Pela Coleta", "Responsável Pela Coleta:"),
  ("n.º da Amostra", "n.º da Amostra"),
  ("n.º de série Equipamento", "n.º de série:"),
  ("Frota", "Frota:"),
  ("Horímetro do Óleo", "Horímetro do Óleo:"),
  ("Houve troca de óleo após coleta?", "Houve troca de óleo após coleta?"),
  ("Troca de Filtro após coleta", "Trocado o filtro após coleta?"),
  ("Houve mudança do local de operação?", "Houve mudança do local de operação?"),
  ("Fabricante", "Fabricante do Equipamento:"),
  ("Modelo", "Modelo:"),
  ("Horímetro do Motor", "Horímetro do Motor"),
  ("Houve complemento de óleo", "Houve complemento de óleo?"),
  ("Se sim, quantos litros", "Se sim, quantos litros?"),
  ("Amostra coletada", "Amostra coletada:"),
  ("Fabricante do Óleo", "Fabricante:"),
  ("Grau de viscosidade", "Grau de viscosidade:"),
  ("Nome", "Nome:"),
  ("Apresentou limalha no filtro ou na tela?", "Apresentou limalha no filtro ou na tela?"),
  ("Apresentou limalhas no bujão magnético?", "Apresentou limalhas no bujão magnético?"),
  ("Equipamento apresentou ruído anormal?", "Equipamento apresentou ruído anormal?"),
  ("Existem vazamentos no sistema", "Existem vazamentos no sistema?"),
  ("A temperatura de operação está normal?", "A temperatura de operação está normal?"),
  ("O desempenho do sistema está normal?", "O desempenho do sistema está normal?"),
  ("Detalhes das anormalidades (caso Haja)", "Detalhes das anormalidades (caso Haja):"),
  ("Pessoa de contato", "Pessoa de contato:"),
  ("Telefone", "Telefone:")]

/-- `FORM_SECTIONS` from `utils.py`; `today` stands for the impure
`datetime.today().strftime` default of the collection date field. -/
def FORM_SECTIONS (today : String) : List (String × List (String × Val)) := [
  ("Geral", [
    ("Estado de Origem", Val.str "AM"),
    ("Cliente", Val.str "Pie - Oliveira Energia"),
    ("Data da coleta", Val.str today),
    ("Local de operação:", Val.str ""),
    ("UGD:", Val.str ""),
    ("Responsável Pela Coleta:", Val.str ""),
    ("n.º da Amostra", Val.str ""),
    (OS_FORM_LABEL, Val.str "")]),
  ("Equipamento", [
    ("n.º de série:", Val.str ""),
    ("Frota:", Val.str ""),
    ("Horímetro do Óleo:", Val.str ""),
    ("Houve troca de óleo após coleta?", Val.bool false),
    ("Trocado o filtro após coleta?", Val.bool false),
    ("Houve mudança do local de operação?", Val.bool false),
    ("Fabricante do Equipamento:", Val.str "Scania"),
    ("Modelo:", Val.str "DC13"),
    ("Horímetro do Motor", Val.str "")]),
  ("Óleo", [
    ("Houve complemento de óleo?", Val.bool false),
    ("Se sim, quantos litros?", Val.str ""),
    ("Amostra coletada:", Val.str "Motor"),
    ("Fabricante:", Val.str "Mobil"),
    ("Grau de viscosidade:", Val.str "15W40"),
    ("Nome:", Val.str "Mobil Delvac"),
    ("Apresentou limalha no filtro ou na tela?", Val.bool false),
    ("Apresentou limalhas no bujão magnético?", Val.bool false),
    ("Equipamento apresentou ruído anormal?", Val.bool false),
    ("Existem vazamentos no sistema?", Val.bool false),
    ("A temperatura de operação está normal?", Val.bool false),
    ("O desempenho do sistema está normal?", Val.bool false),
    ("Detalhes das anormalidades (caso Haja):", Val.str "")]),
  ("Contato", [
    ("Pessoa de contato:", Val.str "Francisco Sampaio"),
    ("Telefone:", Val.str "(92) 99437-6579")])]

/-- `isinstance(default, bool)` on a form default. -/
def isBoolVal : Val → Bool
  | Val.bool _ => true
  | _ => false

/-- `BOOL_LABELS` from `utils.py`: labels whose schema default is boolean. -/
def BOOL_LABELS (today : String) : List String :=
  (((FORM_SECTIONS today).map Prod.snd).flatten).filterMap
    (fun q => if isBoolVal q.2 then some q.1 else none)

/-- `_build_base_defaults` from `utils.py`. -/
def build_base_defaults (today : String) : List (String × Val) :=
  (((FORM_SECTIONS today).map Prod.snd).flatten).foldl
    (fun d q => dictSet d q.1 q.2) []

/-- `BASE_FORM_DEFAULTS` from `utils.py`. -/
def BASE_FORM_DEFAULTS (today : String) : List (String × Val) :=
  build_base_defaults today

/-- The ASCII whitespace characters stripped by Python `str.strip()`. -/
def isPyWhitespace (c : Char) : Bool :=
  c == ' ' || c == '\t' || c == '\n' || c == '\r' ||
    c == Char.ofNat 11 || c == Char.ofNat 12

/-- Python `str.strip()` (no argument): drop leading and trailing
whitespace; restricted to ASCII whitespace, which is all that occurs in
the data handled here. -/
def pyStrip (s : String) : String :=
  String.mk (((s.data.dropWhile isPyWhitespace).reverse.dropWhile
    isPyWhitespace).reverse)

/-- Python `str.lower` restricted to the character ranges that occur here:
ASCII capitals and the Latin-1 capitals (`À`..`Þ` except `×`), each of
which lowercases by adding 32 to its code point. -/
def pyCharLower (c : Char) : Char :=
  if 'A' ≤ c ∧ c ≤ 'Z' then Char.ofNat (c.toNat + 32)
  else if 0xC0 ≤ c.toNat ∧ c.toNat ≤ 0xDE ∧ c.toNat ≠ 0xD7 then
    Char.ofNat (c.toNat + 32)
  else c

/-- Python `str.lower` over a whole string. -/
def pyLower (s : String) : String := String.mk (s.data.map pyCharLower)

/-- The affirmative vocabulary of `_coerce_sheet_value` in `utils.py`. -/
def AFFIRMATIVE_TOKENS : List String := ["sim", "s", "true", "1", "yes"]

/-- The negative vocabulary of `_coerce_sheet_value` in `utils.py`. -/
def NEGATIVE_TOKENS : List String := ["não", "nao", "n", "false", "0", "no"]

/-- `bool(base_default) if isinstance(base_default, bool) else False` in
`_coerce_sheet_value`: the fallback taken from the schema defaults. -/
def base_bool_default (today label : String) : Val :=
  match (BASE_FORM_DEFAULTS today).lookup label with
  | some (Val.bool b) => Val.bool b
  | _ => Val.bool false

/-- `_coerce_sheet_value` from `utils.py` on a string cell value. -/
def _coerce_sheet_value (today label : String) (value : String) : Val :=
  if (BOOL_LABELS today).contains label then
    let text := pyLower (pyStrip value)
    if AFFIRMATIVE_TOKENS.contains text then Val.bool true
    else if NEGATIVE_TOKENS.contains text then Val.bool false
    else base_bool_default today label
  else Val.str value

/-- `_column_letter_to_index` from `utils.py`, on an uppercase column name. -/
def _column_letter_to_index (col : String) : Nat :=
  ((pyStrip col).data.foldl (fun idx ch => idx * 26 + (ch.toNat - 'A'.toNat + 1)) 0) - 1

/-- The `header_map` dict comprehension plus `.get` of
`_fetch_sample_from_sheets`: a Python dict keeps the LAST index of a
duplicated header name. -/
def header_index (header : List String) (name : String) : Option Nat :=
  ((header.enum.filter (fun p => p.2 == name)).getLast?).map (fun p => p.1)

/-- The match-collecting loop of `_fetch_sample_from_sheets`:
`for idx, row in enumerate(rows[1:], start=2)` keeping rows whose trimmed
identifier cell equals the queried identifier. -/
def matchRowsFrom (col : Nat) (sample : String) :
    Nat → List (List String) → List (Nat × List String)
  | _, [] => []
  | idx, row :: rest =>
    if pyStrip (row.getD col "") == sample then
      (idx, row) :: matchRowsFrom col sample (idx + 1) rest
    else matchRowsFrom col sample (idx + 1) rest

/-- The `form_data` reconstruction loop of `_fetch_sample_from_sheets`,
including the O.S. cell read from the O.S. column (header lookup with the
`_column_letter_to_index` fallback). -/
def fetch_form_data (today : String) (header row_values : List String) :
    List (String × Val) :=
  let base := SHEET_HEADER_TO_FORM.foldl (fun fd p =>
    match header_index header p.1 with
    | none => fd
    | some col_idx =>
        dictSet fd p.2 (_coerce_sheet_value today p.2 (row_values.getD col_idx "")))
    []
  let os_col_idx := (header_index header OS_FORM_LABEL).getD
    (_column_letter_to_index OS_TARGET_COL)
  dictSet base OS_FORM_LABEL (Val.str (row_values.getD os_col_idx ""))

/-- The `extras` collection loop of `_fetch_sample_from_sheets`: the raw
`Status` / `Data Status` cells, set only when the column exists and the
row is long enough. -/
def fetch_extras (header row_values : List String) : List (String × String) :=
  ["Status", "Data Status"].foldl (fun ex name =>
    match header_index header name with
    | none => ex
    | some idx =>
        if idx < row_values.length then dictSet ex name (row_values.getD idx "")
        else ex)
    []

/-- The reconciliation result of `_fetch_sample_from_sheets`:
`(row_idx, form_data, len(matches), extras)`. -/
structure FetchRes where
  row_idx : Nat
  form_data : List (String × Val)
  match_count : Nat
  extras : List (String × String)
deriving DecidableEq

/-- `_fetch_sample_from_sheets` from `utils.py` as a pure function of the
full `A:AH` range read (`rows`, header first) and the queried identifier.
`.error` stands for a raised `RuntimeError`; `.ok none` is Python `None`. -/
def _fetch_sample_from_sheets (today : String) (rows : List (List String))
    (sample_number : String) : Except String (Option FetchRes) :=
  match rows with
  | [] => .ok none
  | header :: data =>
    match header_index header "n.º da Amostra" with
    | none => .error "Cabeçalho n.º da Amostra não encontrado na planilha."
    | some sample_col_idx =>
      let matched := matchRowsFrom sample_col_idx sample_number 2 data
      match matched.getLast? with
      | none => .ok none
      | some last =>
        .ok (some ⟨last.1, fetch_form_data today header last.2,
          matched.length, fetch_extras header last.2⟩)

/-- `_fmt` from `utils.py`: booleans become `Sim` / `Não`, strings pass. -/
def _fmt : Val → String
  | Val.bool true => "Sim"
  | Val.bool false => "Não"
  | Val.str s => s

/-- The `row_out` construction loop of `save_to_sheets`: one cell per
header of `SHEET_HEADERS_EXCL_OS`, with `Status` / `Data Status` taken
from `extras` and every other cell from the form responses via
`SHEET_HEADER_TO_FORM` and `_fmt`. -/
def build_row_out (responses : List (String × Val))
    (extras : List (String × String)) : List String :=
  SHEET_HEADERS_EXCL_OS.map (fun hdr =>
    if hdr == "Status" || hdr == "Data Status" then dictGet extras hdr ""
    else
      match SHEET_HEADER_TO_FORM.lookup hdr with
      | some form_label => _fmt (dictGet responses form_label (Val.str ""))
      | none => _fmt (Val.str ""))

/-- A write operation issued against the store. -/
inductive WriteOp where
  | append (range : String) (values : List (List String))
  | update (range : String) (values : List (List String))
deriving DecidableEq

/-- Result of one `save_to_sheets` call: the store writes it executed, in
order, and either the returned row index or the raised error message. -/
structure SaveResult where
  writes : List WriteOp
  result : Except String Nat

/-- `c.isDigit` test used to model `\d` of the row-index regexes. -/
def takeDigits : List Char → List Char × List Char
  | [] => ([], [])
  | c :: rest =>
    if c.isDigit then
      let p := takeDigits rest
      (c :: p.1, p.2)
    else ([], c :: rest)

/-- Scan to just after the first `!`, as both row-index regexes anchor on
a literal `!`; `none` when the string has no `!`. -/
def dropToBang : List Char → Option (List Char)
  | [] => none
  | c :: rest => if c == '!' then some rest else dropToBang rest

/-- `re.search` of `(\d+):` after the anchor: the earliest maximal digit
run immediately followed by a colon. -/
def searchDigitsColon : List Char → Option (List Char)
  | [] => none
  | c :: rest =>
    if c.isDigit then
      let p := takeDigits (c :: rest)
      match p.2 with
      | ':' :: _ => some p.1
      | _ => searchDigitsColon rest
    else searchDigitsColon rest

/-- `re.search` of `(\d+)$` after the anchor: the digit run ending the
string. -/
def searchDigitsEnd : List Char → Option (List Char)
  | [] => none
  | c :: rest =>
    if c.isDigit then
      let p := takeDigits (c :: rest)
      if p.2.isEmpty then some p.1 else searchDigitsEnd rest
    else searchDigitsEnd rest

/-- Python `int` on a string of decimal digits. -/
def digitsToNat (ds : List Char) : Nat :=
  ds.foldl (fun n c => n * 10 + (c.toNat - '0'.toNat)) 0

/-- The row-index extraction of `save_to_sheets`:
`re.search(r"!.*?(\d+):", updated_range) or re.search(r"!.*?(\d+)$", ...)`
followed by `int(m.group(1))`; `none` when neither regex matches. -/
def parse_inserted_row (updated_range : String) : Option Nat :=
  match dropToBang updated_range.data with
  | none => none
  | some rest =>
    match searchDigitsColon rest with
    | some run => some (digitsToNat run)
    | none =>
      match searchDigitsEnd rest with
      | some run => some (digitsToNat run)
      | none => none

/-- `save_to_sheets` from `utils.py` as a pure function. The store is
explicit: `append_updated_range` is the `updatedRange` string the append
response would carry, and the returned `SaveResult` lists the writes
executed (the append is executed before the row index is parsed, so it is
recorded even when parsing fails and the call raises). -/
def save_to_sheets (responses : List (String × Val)) (existing_row : Option Nat)
    (existing_extras : List (String × String)) (append_updated_range : String) :
    SaveResult :=
  let extras := existing_extras
  let row_out := build_row_out responses extras
  let os_value := _fmt (dictGet responses OS_FORM_LABEL (Val.str ""))
  match existing_row with
  | some row_idx_int =>
    let row_full := row_out ++ [os_value]
    { writes := [WriteOp.update
        (SHEET_NAME ++ "!A" ++ toString row_idx_int ++ ":AH" ++ toString row_idx_int)
        [row_full]],
      result := .ok row_idx_int }
  | none =>
    let append_write := WriteOp.append (SHEET_NAME ++ "!A1") [row_out]
    match parse_inserted_row append_updated_range with
    | none =>
      { writes := [append_write],
        result := .error
          ("Não foi possível detectar a linha inserida: " ++ append_updated_range) }
    | some row_idx_int =>
      { writes := [append_write,
          WriteOp.update (SHEET_NAME ++ "!" ++ OS_TARGET_COL ++ toString row_idx_int)
            [[os_value]]],
        result := .ok row_idx_int }

/-- The Streamlit session state touched by the identifier handler:
the identifier widget value, the form value cache, the pending update
queue, and the lookup bookkeeping keys. -/
structure SessionState where
  widget_sample : String
  form_values : List (String × Val)
  pending_form_values : List (String × Val)
  sample_row_index : Option Nat
  sample_lookup_status : Option String
  sample_lookup_message : String
  sample_lookup_warning : Option String
  sample_existing_extras : List (String × String)
  sample_last_loaded_number : String
deriving DecidableEq

/-- `_queue_form_updates` from `utils.py`: merge `values` into both the
form value cache and the pending queue. -/
def _queue_form_updates (s : SessionState) (values : List (String × Val)) :
    SessionState :=
  { s with form_values := dictUpdate s.form_values values,
           pending_form_values := dictUpdate s.pending_form_values values }

/-- `_reset_form_defaults` from `utils.py`. -/
def _reset_form_defaults (today : String) (s : SessionState)
    (keep_sample : Option String) : SessionState :=
  let defaults := match keep_sample with
    | some k => dictSet (BASE_FORM_DEFAULTS today) "n.º da Amostra" (Val.str k)
    | none => BASE_FORM_DEFAULTS today
  _queue_form_updates { s with form_values := defaults } defaults

/-- Result of `_handle_sample_change`: the new session state and how many
store queries the call issued. -/
structure HandleResult where
  state : SessionState
  queries : Nat
deriving DecidableEq

/-- `_handle_sample_change` from `utils.py`, with the store query
abstracted as `fetch` (in the application it is
`_fetch_sample_from_sheets` over the current sheet contents). -/
def _handle_sample_change (today : String)
    (fetch : String → Except String (Option FetchRes)) (s0 : SessionState) :
    HandleResult :=
  let sample_value := pyStrip s0.widget_sample
  let s := { s0 with sample_lookup_warning := none }
  if sample_value ≠ "" then
    match fetch sample_value with
    | .error exc =>
      { state := { s with sample_row_index := none,
                          sample_lookup_status := some "error",
                          sample_lookup_message := "Erro ao buscar amostra: " ++ exc },
        queries := 1 }
    | .ok none =>
      let s1 := _reset_form_defaults today s (some sample_value)
      { state := { s1 with sample_row_index := none,
                           sample_lookup_status := some "new",
                           sample_lookup_message := "Amostra " ++ sample_value ++
                             " não encontrada. Preencha os dados para criar um novo registro.",
                           sample_existing_extras := [],
                           sample_last_loaded_number := sample_value },
        queries := 1 }
    | .ok (some f) =>
      let form_data := dictSet f.form_data "n.º da Amostra" (Val.str sample_value)
      let s1 := _queue_form_updates s form_data
      let warn := if f.match_count > 1 then
          some ("Foram encontradas " ++ toString f.match_count ++
            " linhas com este número. A mais recente (linha " ++
            toString f.row_idx ++ ") foi carregada.")
        else none
      { state := { s1 with sample_row_index := some f.row_idx,
                           sample_lookup_status := some "loaded",
                           sample_lookup_message := "Amostra " ++ sample_value ++
                             " carregada a partir da linha " ++ toString f.row_idx ++ ".",
                           sample_existing_extras := f.extras,
                           sample_last_loaded_number := sample_value,
                           sample_lookup_warning := warn },
        queries := 1 }
  else
    let s1 := _reset_form_defaults today s (some "")
    { state := { s1 with sample_row_index := none,
                         sample_lookup_status := none,
                         sample_lookup_message := "",
                         sample_existing_extras := [],
                         sample_last_loaded_number := "" },
      queries := 0 }

/-- A concrete loaded session used by the C9 counterexample and witnesses:
identifier 1234 bound to store row 57 with cached extras. -/
def loadedState : SessionState :=
  ⟨"1234", [("Cliente", Val.str "Pie - Oliveira Energia")], [], some 57,
    some "loaded", "msg", none, [("Status", "Aberto")], "1234"⟩

/-! ## Helper lemmas -/

theorem takeDigits_all_digits_colon (r : List Char) :
    ∀ ds : List Char, (∀ c ∈ ds, c.isDigit = true) →
      takeDigits (ds ++ ':' :: r) = (ds, ':' :: r) := by
  intro ds
  induction ds with
  | nil => intro _; simp [takeDigits]
  | cons d ds ih =>
    intro h
    have hd : d.isDigit = true := h d (by simp)
    simp only [List.cons_append, takeDigits, hd, if_true]
    simp [ih (fun c hc => h c (by simp [hc]))]

theorem searchDigitsColon_hit (r : List Char) (d : Char) (ds : List Char)
    (hd : d.isDigit = true) (hds : ∀ c ∈ ds, c.isDigit = true) :
    searchDigitsColon ((d :: ds) ++ ':' :: r) = some (d :: ds) := by
  have hall : ∀ c ∈ d :: ds, c.isDigit = true := by
    intro c hc
    rcases List.mem_cons.mp hc with h | h
    · exact h ▸ hd
    · exact hds c h
  have htake : takeDigits (d :: (ds ++ ':' :: r)) = (d :: ds, ':' :: r) := by
    simpa using takeDigits_all_digits_colon r (d :: ds) hall
  simp only [List.cons_append, searchDigitsColon, hd, if_true, List.append_eq, htake]

theorem parse_wellformed_range (ds : List Char) (tail : String)
    (hds : ds ≠ []) (hdig : ∀ c ∈ ds, c.isDigit = true) :
    parse_inserted_row
      (SHEET_NAME ++ "!A" ++ String.mk ds ++ ":" ++ tail) =
      some (digitsToNat ds) := by
  obtain ⟨d, ds0, rfl⟩ := List.exists_cons_of_ne_nil hds
  have hdata : (SHEET_NAME ++ "!A" ++ String.mk (d :: ds0) ++ ":" ++ tail).data =
      'G' :: 'e' :: 'r' :: 'a' :: 'l' :: '!' :: 'A' :: ((d :: ds0) ++ ':' :: tail.data) := by
    simp [SHEET_NAME, String.data_append, String.mk]
  have hd : d.isDigit = true := hdig d (by simp)
  have hds0 : ∀ c ∈ ds0, c.isDigit = true := fun c hc => hdig c (by simp [hc])
  have hdrop : dropToBang ('G' :: 'e' :: 'r' :: 'a' :: 'l' :: '!' :: 'A' ::
      ((d :: ds0) ++ ':' :: tail.data)) = some ('A' :: ((d :: ds0) ++ ':' :: tail.data)) := rfl
  have hA : searchDigitsColon ('A' :: ((d :: ds0) ++ ':' :: tail.data)) =
      searchDigitsColon ((d :: ds0) ++ ':' :: tail.data) := rfl
  simp only [parse_inserted_row, hdata, hdrop, hA,
    searchDigitsColon_hit tail.data d ds0 hd hds0]

/-- C1: with `existing_row` present, `save_to_sheets` issues a single
full-row update of `A..AH` at that row, whose `Status` (position 31) and
`Data Status` (position 32) cells come from `extras` (empty string when
absent) for every choice of form responses, and it returns `existing_row`
unchanged. -/
theorem save_update_full_row_preserves_extras
    (responses : List (String × Val)) (row : Nat)
    (extras : List (String × String)) (rng : String) :
    (save_to_sheets responses (some row) extras rng).result = .ok row ∧
    (save_to_sheets responses (some row) extras rng).writes =
      [WriteOp.update (SHEET_NAME ++ "!A" ++ toString row ++ ":AH" ++ toString row)
        [build_row_out responses extras ++
          [_fmt (dictGet responses OS_FORM_LABEL (Val.str ""))]]] ∧
    (build_row_out responses extras).get? 31 = some (dictGet extras "Status" "") ∧
    (build_row_out responses extras).get? 32 = some (dictGet extras "Data Status" "") :=
  ⟨rfl, rfl, rfl, rfl⟩

/-- C3 counterexample: a persist call on the append path issues TWO write
operations (the `A..AG` append and the follow-up O.S. cell update), not
one, refuting the claim that no additional write is issued in either
branch. -/
theorem save_append_issues_two_writes :
    ((save_to_sheets [] none [] "Geral!A57:AG57").writes).length = 2 := rfl

/-- C3 amended: the update branch issues exactly one write (a single
full-row range update); the append branch issues the append plus one
follow-up single-cell update writing the O.S. value when the row index
parses, and only the append when it does not parse. -/
theorem save_write_operations
    (responses : List (String × Val)) (extras : List (String × String))
    (row n : Nat) (rng rng2 : String)
    (hok : parse_inserted_row rng = some n)
    (hbad : parse_inserted_row rng2 = none) :
    (save_to_sheets responses (some row) extras rng).writes =
      [WriteOp.update (SHEET_NAME ++ "!A" ++ toString row ++ ":AH" ++ toString row)
        [build_row_out responses extras ++
          [_fmt (dictGet responses OS_FORM_LABEL (Val.str ""))]]] ∧
    (save_to_sheets responses none extras rng).writes =
      [WriteOp.append (SHEET_NAME ++ "!A1") [build_row_out responses extras],
       WriteOp.update (SHEET_NAME ++ "!" ++ OS_TARGET_COL ++ toString n)
        [[_fmt (dictGet responses OS_FORM_LABEL (Val.str ""))]]] ∧
    (save_to_sheets responses none extras rng2).writes =
      [WriteOp.append (SHEET_NAME ++ "!A1") [build_row_out responses extras]] := by
  refine ⟨rfl, ?_, ?_⟩
  · simp [save_to_sheets, hok]
  · simp [save_to_sheets, hbad]

theorem save_write_operations_witness :
    parse_inserted_row "Geral!A57:AG57" = some 57 ∧
    parse_inserted_row "garbage" = none ∧
    ((save_to_sheets [] (some 3) [] "Geral!A57:AG57").writes =
      [WriteOp.update (SHEET_NAME ++ "!A" ++ toString 3 ++ ":AH" ++ toString 3)
        [build_row_out [] [] ++ [_fmt (dictGet [] OS_FORM_LABEL (Val.str ""))]]] ∧
     (save_to_sheets [] none [] "Geral!A57:AG57").writes =
      [WriteOp.append (SHEET_NAME ++ "!A1") [build_row_out [] []],
       WriteOp.update (SHEET_NAME ++ "!" ++ OS_TARGET_COL ++ toString 57)
        [[_fmt (dictGet [] OS_FORM_LABEL (Val.str ""))]]] ∧
     (save_to_sheets [] none [] "garbage").writes =
      [WriteOp.append (SHEET_NAME ++ "!A1") [build_row_out [] []]]) :=
  ⟨by decide, by decide,
    save_write_operations [] [] 3 57 "Geral!A57:AG57" "garbage" (by decide) (by decide)⟩

/-- C8: in the append branch, when the row index cannot be parsed from
the `updatedRange` confirmation, `save_to_sheets` raises (its result is
the parse error, no row index); when the store reports a well-formed
range naming row digits `ds`, the returned index equals that reported
integer. -/
theorem append_row_index_parse
    (responses : List (String × Val)) (extras : List (String × String))
    (rng_bad : String) (ds : List Char) (tail : String)
    (hbad : parse_inserted_row rng_bad = none)
    (hds : ds ≠ []) (hdig : ∀ c ∈ ds, c.isDigit = true) :
    (save_to_sheets responses none extras rng_bad).result =
      .error ("Não foi possível detectar a linha inserida: " ++ rng_bad) ∧
    (save_to_sheets responses none extras
        (SHEET_NAME ++ "!A" ++ String.mk ds ++ ":" ++ tail)).result =
      .ok (digitsToNat ds) := by
  constructor
  · simp [save_to_sheets, hbad]
  · simp [save_to_sheets, parse_wellformed_range ds tail hds hdig]

theorem append_row_index_parse_witness :
    parse_inserted_row "garbage" = none ∧
    (['5', '7'] : List Char) ≠ [] ∧
    (∀ c ∈ (['5', '7'] : List Char), c.isDigit = true) ∧
    ((save_to_sheets [] none [] "garbage").result =
      .error ("Não foi possível detectar a linha inserida: " ++ "garbage") ∧
     (save_to_sheets [] none []
        (SHEET_NAME ++ "!A" ++ String.mk ['5', '7'] ++ ":" ++ "AG57")).result =
      .ok (digitsToNat ['5', '7'])) :=
  ⟨by decide, by decide, by decide,
    append_row_index_parse [] [] "garbage" ['5', '7'] "AG57"
      (by decide) (by decide) (by decide)⟩

/-- C10: the cell sequence is aligned to `SHEET_HEADERS_EXCL_OS`: the
append branch writes exactly 33 cells (`A..AG`) with the O.S. value
written separately to column `AH`, and the update branch writes exactly
34 cells (`A..AH`) with the O.S. value last; every cell is a string by
construction (`build_row_out : ... → List String`). -/
theorem row_cells_aligned
    (responses : List (String × Val)) (extras : List (String × String))
    (row n : Nat) (rng : String)
    (hok : parse_inserted_row rng = some n) :
    (build_row_out responses extras).length = 33 ∧
    (save_to_sheets responses none extras rng).writes =
      [WriteOp.append (SHEET_NAME ++ "!A1") [build_row_out responses extras],
       WriteOp.update (SHEET_NAME ++ "!" ++ OS_TARGET_COL ++ toString n)
        [[_fmt (dictGet responses OS_FORM_LABEL (Val.str ""))]]] ∧
    (save_to_sheets responses (some row) extras rng).writes =
      [WriteOp.update (SHEET_NAME ++ "!A" ++ toString row ++ ":AH" ++ toString row)
        [build_row_out responses extras ++
          [_fmt (dictGet responses OS_FORM_LABEL (Val.str ""))]]] ∧
    (build_row_out responses extras ++
      [_fmt (dictGet responses OS_FORM_LABEL (Val.str ""))]).length = 34 ∧
    (build_row_out responses extras ++
      [_fmt (dictGet responses OS_FORM_LABEL (Val.str ""))]).getLast? =
      some (_fmt (dictGet responses OS_FORM_LABEL (Val.str ""))) := by
  refine ⟨rfl, ?_, rfl, rfl, List.getLast?_concat _⟩
  simp [save_to_sheets, hok]

theorem row_cells_aligned_witness :
    parse_inserted_row "Geral!A57:AG57" = some 57 ∧
    ((build_row_out [] []).length = 33 ∧
     (save_to_sheets [] none [] "Geral!A57:AG57").writes =
      [WriteOp.append (SHEET_NAME ++ "!A1") [build_row_out [] []],
       WriteOp.update (SHEET_NAME ++ "!" ++ OS_TARGET_COL ++ toString 57)
        [[_fmt (dictGet [] OS_FORM_LABEL (Val.str ""))]]] ∧
     (save_to_sheets [] (some 3) [] "Geral!A57:AG57").writes =
      [WriteOp.update (SHEET_NAME ++ "!A" ++ toString 3 ++ ":AH" ++ toString 3)
        [build_row_out [] [] ++ [_fmt (dictGet [] OS_FORM_LABEL (Val.str ""))]]] ∧
     (build_row_out [] [] ++ [_fmt (dictGet [] OS_FORM_LABEL (Val.str ""))]).length = 34 ∧
     (build_row_out [] [] ++ [_fmt (dictGet [] OS_FORM_LABEL (Val.str ""))]).getLast? =
      some (_fmt (dictGet [] OS_FORM_LABEL (Val.str "")))) :=
  ⟨by decide, row_cells_aligned [] [] 3 57 "Geral!A57:AG57" (by decide)⟩

theorem matchRowsFrom_index_ge (col : Nat) (sample : String) :
    ∀ (data : List (List String)) (i : Nat) (p : Nat × List String),
      p ∈ matchRowsFrom col sample i data → i ≤ p.1 := by
  intro data
  induction data with
  | nil => intro i p hp; simp [matchRowsFrom] at hp
  | cons r rs ih =>
    intro i p hp
    cases hc : (pyStrip (r.getD col "") == sample) with
    | true =>
      simp only [matchRowsFrom, hc, if_true] at hp
      rcases List.mem_cons.mp hp with h | hmem
      · rw [h]
      · exact Nat.le_of_succ_le (ih (i + 1) p hmem)
    | false =>
      simp only [matchRowsFrom, hc, if_false] at hp
      exact Nat.le_of_succ_le (ih (i + 1) p hp)

theorem matchRowsFrom_le_getLast? (col : Nat) (sample : String) :
    ∀ (data : List (List String)) (i : Nat) (last : Nat × List String),
      (matchRowsFrom col sample i data).getLast? = some last →
      ∀ p ∈ matchRowsFrom col sample i data, p.1 ≤ last.1 := by
  intro data
  induction data with
  | nil => intro i last hlast; simp [matchRowsFrom] at hlast
  | cons r rs ih =>
    intro i last hlast p hp
    cases hc : (pyStrip (r.getD col "") == sample) with
    | false =>
      simp only [matchRowsFrom, hc, if_false] at hlast hp
      exact ih (i + 1) last hlast p hp
    | true =>
      simp only [matchRowsFrom, hc, if_true] at hlast hp
      cases hrest : matchRowsFrom col sample (i + 1) rs with
      | nil =>
        rw [hrest] at hlast hp
        simp only [List.getLast?_singleton, Option.some.injEq] at hlast
        simp only [List.mem_singleton] at hp
        rw [hp, hlast]
      | cons q qs =>
        rw [hrest] at hlast hp
        rw [List.getLast?_cons_cons] at hlast
        have hlast2 : (matchRowsFrom col sample (i + 1) rs).getLast? = some last := by
          rw [hrest]
          exact hlast
        rcases List.mem_cons.mp hp with h | hmem
        · have hmem_last : last ∈ matchRowsFrom col sample (i + 1) rs :=
            List.mem_of_mem_getLast? hlast2
          have h2 := matchRowsFrom_index_ge col sample rs (i + 1) last hmem_last
          rw [h]
          exact Nat.le_of_succ_le h2
        · exact ih (i + 1) last hlast2 p (by rw [hrest]; exact hmem)

/-- C2: when N ≥ 1 data rows have a trimmed identifier cell equal to the
queried identifier (so the match list is nonempty with last element
`last`), the lookup returns that last — highest-indexed — matching row
(`∀ p ∈ matches, p.1 ≤ last.1`) together with `match_count` equal to the
number N of matches; for N = 1 this is that row and count 1. -/
theorem fetch_returns_last_match
    (today sample : String) (header : List String) (data : List (List String))
    (c : Nat) (last : Nat × List String)
    (hc : header_index header "n.º da Amostra" = some c)
    (hlast : (matchRowsFrom c sample 2 data).getLast? = some last) :
    _fetch_sample_from_sheets today (header :: data) sample =
      .ok (some ⟨last.1, fetch_form_data today header last.2,
        (matchRowsFrom c sample 2 data).length, fetch_extras header last.2⟩) ∧
    ∀ p ∈ matchRowsFrom c sample 2 data, p.1 ≤ last.1 := by
  constructor
  · simp [_fetch_sample_from_sheets, hc, hlast]
  · exact matchRowsFrom_le_getLast? c sample data 2 last hlast

theorem fetch_returns_last_match_witness :
    header_index ["n.º da Amostra"] "n.º da Amostra" = some 0 ∧
    (matchRowsFrom 0 "1234" 2 [["1234"], ["x"], ["1234"]]).getLast? =
      some ((4, ["1234"]) : Nat × List String) ∧
    (_fetch_sample_from_sheets "01/01/2024" (["n.º da Amostra"] :: [["1234"], ["x"], ["1234"]]) "1234" =
      .ok (some ⟨((4, ["1234"]) : Nat × List String).1,
        fetch_form_data "01/01/2024" ["n.º da Amostra"] ((4, ["1234"]) : Nat × List String).2,
        (matchRowsFrom 0 "1234" 2 [["1234"], ["x"], ["1234"]]).length,
        fetch_extras ["n.º da Amostra"] ((4, ["1234"]) : Nat × List String).2⟩) ∧
     ∀ p ∈ matchRowsFrom 0 "1234" 2 [["1234"], ["x"], ["1234"]],
       p.1 ≤ ((4, ["1234"]) : Nat × List String).1) :=
  ⟨by decide, by decide,
    fetch_returns_last_match "01/01/2024" "1234" ["n.º da Amostra"]
      [["1234"], ["x"], ["1234"]] 0 (4, ["1234"]) (by decide) (by decide)⟩

/-- C6: when no data row of the store matches the identifier (empty match
list under the located identifier column), the lookup returns `NotFound`
(`.ok none`), and a persist call with `existing_row` absent takes the
append path — its first store write is the row append — whereas the
update path never issues an append operation. -/
theorem lookup_notfound_then_append
    (today sample : String) (header : List String) (data : List (List String))
    (c : Nat)
    (hc : header_index header "n.º da Amostra" = some c)
    (hm : matchRowsFrom c sample 2 data = []) :
    _fetch_sample_from_sheets today (header :: data) sample = .ok none ∧
    (∀ (responses : List (String × Val)) (extras : List (String × String)) (rng : String),
      (save_to_sheets responses none extras rng).writes.head? =
        some (WriteOp.append (SHEET_NAME ++ "!A1") [build_row_out responses extras])) ∧
    (∀ (responses : List (String × Val)) (extras : List (String × String))
      (rng : String) (row : Nat) (w : WriteOp),
      w ∈ (save_to_sheets responses (some row) extras rng).writes →
      ∀ (r2 : String) (vs : List (List String)), w ≠ WriteOp.append r2 vs) := by
  refine ⟨?_, ?_, ?_⟩
  · simp [_fetch_sample_from_sheets, hc, hm]
  · intro responses extras rng
    cases hp : parse_inserted_row rng <;> simp [save_to_sheets, hp]
  · intro responses extras rng row w hw r2 vs
    simp only [save_to_sheets, List.mem_singleton] at hw
    rw [hw]
    simp

theorem lookup_notfound_then_append_witness :
    header_index ["n.º da Amostra"] "n.º da Amostra" = some 0 ∧
    matchRowsFrom 0 "1234" 2 [["x"]] = [] ∧
    (_fetch_sample_from_sheets "01/01/2024" (["n.º da Amostra"] :: [["x"]]) "1234" = .ok none ∧
     (∀ (responses : List (String × Val)) (extras : List (String × String)) (rng : String),
       (save_to_sheets responses none extras rng).writes.head? =
         some (WriteOp.append (SHEET_NAME ++ "!A1") [build_row_out responses extras])) ∧
     (∀ (responses : List (String × Val)) (extras : List (String × String))
       (rng : String) (row : Nat) (w : WriteOp),
       w ∈ (save_to_sheets responses (some row) extras rng).writes →
       ∀ (r2 : String) (vs : List (List String)), w ≠ WriteOp.append r2 vs)) :=
  ⟨by decide, by decide,
    lookup_notfound_then_append "01/01/2024" "1234" ["n.º da Amostra"] [["x"]] 0
      (by decide) (by decide)⟩

theorem neg_token_not_affirmative (t : String)
    (h : NEGATIVE_TOKENS.contains t = true) :
    AFFIRMATIVE_TOKENS.contains t = false := by
  have hm : t ∈ NEGATIVE_TOKENS := by simpa using h
  fin_cases hm <;> decide

/-- C4: for every boolean-typed form label, `_coerce_sheet_value` maps a
cell whose stripped lower-cased text is an affirmative token to `true`, a
negative token to `false`, and anything else to the schema default of the
field (the code falls back to `BASE_FORM_DEFAULTS`, embedded here as
`base_bool_default`). -/
theorem coerce_bool_vocabulary (today label value : String)
    (hl : (BOOL_LABELS today).contains label = true) :
    (AFFIRMATIVE_TOKENS.contains (pyLower (pyStrip value)) = true →
      _coerce_sheet_value today label value = Val.bool true) ∧
    (NEGATIVE_TOKENS.contains (pyLower (pyStrip value)) = true →
      _coerce_sheet_value today label value = Val.bool false) ∧
    (AFFIRMATIVE_TOKENS.contains (pyLower (pyStrip value)) = false →
      NEGATIVE_TOKENS.contains (pyLower (pyStrip value)) = false →
      _coerce_sheet_value today label value = base_bool_default today label) := by
  have hlm : label ∈ BOOL_LABELS today := by simpa using hl
  refine ⟨?_, ?_, ?_⟩
  · intro h
    have hm : pyLower (pyStrip value) ∈ AFFIRMATIVE_TOKENS := by simpa using h
    simp [_coerce_sheet_value, hlm, hm]
  · intro h
    have hm : pyLower (pyStrip value) ∈ NEGATIVE_TOKENS := by simpa using h
    have h2 : pyLower (pyStrip value) ∉ AFFIRMATIVE_TOKENS := by
      simpa using neg_token_not_affirmative _ h
    simp [_coerce_sheet_value, hlm, hm, h2]
  · intro h1 h2
    have hm1 : pyLower (pyStrip value) ∉ AFFIRMATIVE_TOKENS := by simpa using h1
    have hm2 : pyLower (pyStrip value) ∉ NEGATIVE_TOKENS := by simpa using h2
    simp [_coerce_sheet_value, hlm, hm1, hm2]

theorem coerce_bool_vocabulary_witness :
    (BOOL_LABELS "01/01/2024").contains "Houve complemento de óleo?" = true ∧
    ((AFFIRMATIVE_TOKENS.contains (pyLower (pyStrip " SIM ")) = true →
      _coerce_sheet_value "01/01/2024" "Houve complemento de óleo?" " SIM " = Val.bool true) ∧
     (NEGATIVE_TOKENS.contains (pyLower (pyStrip " SIM ")) = true →
      _coerce_sheet_value "01/01/2024" "Houve complemento de óleo?" " SIM " = Val.bool false) ∧
     (AFFIRMATIVE_TOKENS.contains (pyLower (pyStrip " SIM ")) = false →
      NEGATIVE_TOKENS.contains (pyLower (pyStrip " SIM ")) = false →
      _coerce_sheet_value "01/01/2024" "Houve complemento de óleo?" " SIM " =
        base_bool_default "01/01/2024" "Houve complemento de óleo?")) :=
  ⟨by decide,
    coerce_bool_vocabulary "01/01/2024" "Houve complemento de óleo?" " SIM " (by decide)⟩

/-- C5: round-trip of the boolean encoding: `_fmt` writes `true` as
`Sim` and `false` as `Não`, and `_coerce_sheet_value` reads those cells
back to exactly the original boolean for every boolean-typed form label
— the token coercion is a left inverse of the boolean formatting, which
is what `persist` followed by `lookup` performs on a boolean field. -/
theorem coerce_fmt_roundtrip (today label : String) (b : Bool)
    (hl : (BOOL_LABELS today).contains label = true) :
    _coerce_sheet_value today label (_fmt (Val.bool b)) = Val.bool b := by
  have hlm : label ∈ BOOL_LABELS today := by simpa using hl
  have ht : pyLower (pyStrip "Sim") ∈ AFFIRMATIVE_TOKENS := by decide
  have hf1 : pyLower (pyStrip "Não") ∉ AFFIRMATIVE_TOKENS := by decide
  have hf2 : pyLower (pyStrip "Não") ∈ NEGATIVE_TOKENS := by decide
  cases b <;> simp [_coerce_sheet_value, _fmt, hlm, ht, hf1, hf2]

theorem coerce_fmt_roundtrip_witness :
    (BOOL_LABELS "01/01/2024").contains "Existem vazamentos no sistema?" = true ∧
    _coerce_sheet_value "01/01/2024" "Existem vazamentos no sistema?"
      (_fmt (Val.bool true)) = Val.bool true :=
  ⟨by decide,
    coerce_fmt_roundtrip "01/01/2024" "Existem vazamentos no sistema?" true (by decide)⟩

theorem base_form_defaults_eq (today : String) :
    BASE_FORM_DEFAULTS today = [
      ("Estado de Origem", Val.str "AM"),
      ("Cliente", Val.str "Pie - Oliveira Energia"),
      ("Data da coleta", Val.str today),
      ("Local de operação:", Val.str ""),
      ("UGD:", Val.str ""),
      ("Responsável Pela Coleta:", Val.str ""),
      ("n.º da Amostra", Val.str ""),
      ("Ordem de Serviço (O.S.)", Val.str ""),
      ("n.º de série:", Val.str ""),
      ("Frota:", Val.str ""),
      ("Horímetro do Óleo:", Val.str ""),
      ("Houve troca de óleo após coleta?", Val.bool false),
      ("Trocado o filtro após coleta?", Val.bool false),
      ("Houve mudança do local de operação?", Val.bool false),
      ("Fabricante do Equipamento:", Val.str "Scania"),
      ("Modelo:", Val.str "DC13"),
      ("Horímetro do Motor", Val.str ""),
      ("Houve complemento de óleo?", Val.bool false),
      ("Se sim, quantos litros?", Val.str ""),
      ("Amostra coletada:", Val.str "Motor"),
      ("Fabricante:", Val.str "Mobil"),
      ("Grau de viscosidade:", Val.str "15W40"),
      ("Nome:", Val.str "Mobil Delvac"),
      ("Apresentou limalha no filtro ou na tela?", Val.bool false),
      ("Apresentou limalhas no bujão magnético?", Val.bool false),
      ("Equipamento apresentou ruído anormal?", Val.bool false),
      ("Existem vazamentos no sistema?", Val.bool false),
      ("A temperatura de operação está normal?", Val.bool false),
      ("O desempenho do sistema está normal?", Val.bool false),
      ("Detalhes das anormalidades (caso Haja):", Val.str ""),
      ("Pessoa de contato:", Val.str "Francisco Sampaio"),
      ("Telefone:", Val.str "(92) 99437-6579")] := by
  simp [BASE_FORM_DEFAULTS, build_base_defaults, FORM_SECTIONS, OS_FORM_LABEL, dictSet]

theorem dictSet_self_of_mem {α : Type} :
    ∀ (d : List (String × α)) (k : String) (v : α),
      d.lookup k = some v → dictSet d k v = d
  | [], k, v, h => by simp [List.lookup] at h
  | (k1, v1) :: rest, k, v, h => by
    by_cases hk : k = k1
    · subst hk
      have h2 : v1 = v := by simpa [List.lookup] using h
      subst h2
      simp [dictSet]
    · have hk3 : (k == k1) = false := by
        simp [beq_iff_eq]
        exact hk
      have hk2 : (k1 == k) = false := by
        simp [beq_iff_eq]
        exact fun hh => hk hh.symm
      have h2 : rest.lookup k = some v := by
        simpa [List.lookup, hk3] using h
      simp only [dictSet, hk2]
      simp
      exact dictSet_self_of_mem rest k v h2

theorem dictUpdate_self_of_lookup {α : Type} :
    ∀ (u d : List (String × α)),
      (∀ p ∈ u, d.lookup p.1 = some p.2) → dictUpdate d u = d
  | [], d, _ => rfl
  | p :: rest, d, h => by
    have hd : dictSet d p.1 p.2 = d := dictSet_self_of_mem d p.1 p.2 (h p (by simp))
    simp only [dictUpdate, List.foldl_cons, hd]
    exact dictUpdate_self_of_lookup rest d (fun q hq => h q (by simp [hq]))

theorem defaults_empty_sample_eq (today : String) :
    dictSet (BASE_FORM_DEFAULTS today) "n.º da Amostra" (Val.str "") =
      BASE_FORM_DEFAULTS today := by
  rw [base_form_defaults_eq]
  simp [dictSet]

theorem base_defaults_self_lookup (today : String) :
    ∀ p ∈ BASE_FORM_DEFAULTS today,
      (BASE_FORM_DEFAULTS today).lookup p.1 = some p.2 := by
  rw [base_form_defaults_eq]
  intro p hp
  fin_cases hp <;> simp [List.lookup]

theorem handle_empty_eq (today : String)
    (fetch : String → Except String (Option FetchRes)) (s : SessionState)
    (h : pyStrip s.widget_sample = "") :
    _handle_sample_change today fetch s =
      { state := { _reset_form_defaults today { s with sample_lookup_warning := none }
                     (some "") with
                   sample_row_index := none,
                   sample_lookup_status := none,
                   sample_lookup_message := "",
                   sample_existing_extras := [],
                   sample_last_loaded_number := "" },
        queries := 0 } := by
  simp [_handle_sample_change, h]

/-- C7: when the trimmed identifier is empty, the identifier-change
handler issues no store query (query count 0 and the result does not
depend on the store at all), resets the form fields to the schema
defaults with an empty identifier, and clears the bound row index and
the cached extras. -/
theorem empty_identifier_resets_no_query
    (today : String) (s : SessionState)
    (fetch : String → Except String (Option FetchRes))
    (h : pyStrip s.widget_sample = "") :
    (_handle_sample_change today fetch s).queries = 0 ∧
    (∀ fetch2, _handle_sample_change today fetch2 s = _handle_sample_change today fetch s) ∧
    (_handle_sample_change today fetch s).state.form_values =
      dictSet (BASE_FORM_DEFAULTS today) "n.º da Amostra" (Val.str "") ∧
    (_handle_sample_change today fetch s).state.sample_row_index = none ∧
    (_handle_sample_change today fetch s).state.sample_existing_extras = [] := by
  refine ⟨?_, ?_, ?_, ?_, ?_⟩
  · rw [handle_empty_eq today fetch s h]
  · intro fetch2
    rw [handle_empty_eq today fetch s h, handle_empty_eq today fetch2 s h]
  · rewrite [handle_empty_eq today fetch s h]
    simp only [_reset_form_defaults, _queue_form_updates]
    rewrite [defaults_empty_sample_eq]
    exact dictUpdate_self_of_lookup _ _ (base_defaults_self_lookup today)
  · rw [handle_empty_eq today fetch s h]
  · rw [handle_empty_eq today fetch s h]

theorem empty_identifier_resets_no_query_witness :
    pyStrip (SessionState.mk "  " [("Cliente", Val.str "junk")] [] (some 9)
      (some "loaded") "m" (some "w") [("Status", "A")] "9").widget_sample = "" ∧
    ((_handle_sample_change "01/01/2024" (fun _ => .ok none)
        (SessionState.mk "  " [("Cliente", Val.str "junk")] [] (some 9)
          (some "loaded") "m" (some "w") [("Status", "A")] "9")).queries = 0 ∧
     (∀ fetch2, _handle_sample_change "01/01/2024" fetch2
        (SessionState.mk "  " [("Cliente", Val.str "junk")] [] (some 9)
          (some "loaded") "m" (some "w") [("Status", "A")] "9") =
        _handle_sample_change "01/01/2024" (fun _ => .ok none)
        (SessionState.mk "  " [("Cliente", Val.str "junk")] [] (some 9)
          (some "loaded") "m" (some "w") [("Status", "A")] "9")) ∧
     (_handle_sample_change "01/01/2024" (fun _ => .ok none)
        (SessionState.mk "  " [("Cliente", Val.str "junk")] [] (some 9)
          (some "loaded") "m" (some "w") [("Status", "A")] "9")).state.form_values =
       dictSet (BASE_FORM_DEFAULTS "01/01/2024") "n.º da Amostra" (Val.str "") ∧
     (_handle_sample_change "01/01/2024" (fun _ => .ok none)
        (SessionState.mk "  " [("Cliente", Val.str "junk")] [] (some 9)
          (some "loaded") "m" (some "w") [("Status", "A")] "9")).state.sample_row_index = none ∧
     (_handle_sample_change "01/01/2024" (fun _ => .ok none)
        (SessionState.mk "  " [("Cliente", Val.str "junk")] [] (some 9)
          (some "loaded") "m" (some "w") [("Status", "A")] "9")).state.sample_existing_extras = []) :=
  ⟨rfl,
    empty_identifier_resets_no_query "01/01/2024"
      (SessionState.mk "  " [("Cliente", Val.str "junk")] [] (some 9)
        (some "loaded") "m" (some "w") [("Status", "A")] "9")
      (fun _ => .ok none) rfl⟩

/-- C9 counterexample: on a store query failure the handler does NOT
leave the bound row index unchanged — starting from a loaded session
bound to store row 57, a failing query resets `sample_row_index` to
`none`, refuting the claim that the bound row index is left unchanged. -/
theorem handle_error_clears_bound_row :
    (_handle_sample_change "01/01/2024" (fun _ => .error "boom")
      loadedState).state.sample_row_index ≠ loadedState.sample_row_index := by
  decide

/-- C9 amended: on a store query failure during lookup the error is
surfaced as the terminal lookup message of that interaction, exactly one
query is issued (no retry), and the form values, the pending update
queue, the cached extras and the last-loaded number are left unchanged —
but the bound row index is cleared to `none` (and the duplicate warning
is reset). -/
theorem handle_query_error_state
    (today msg : String) (fetch : String → Except String (Option FetchRes))
    (s : SessionState)
    (hne : pyStrip s.widget_sample ≠ "")
    (hf : fetch (pyStrip s.widget_sample) = .error msg) :
    _handle_sample_change today fetch s =
      { state := { s with sample_lookup_warning := none,
                          sample_row_index := none,
                          sample_lookup_status := some "error",
                          sample_lookup_message := "Erro ao buscar amostra: " ++ msg },
        queries := 1 } := by
  simp [_handle_sample_change, hne, hf]

theorem handle_query_error_state_witness :
    pyStrip loadedState.widget_sample ≠ "" ∧
    ((fun _ : String => (.error "boom" : Except String (Option FetchRes)))
      (pyStrip loadedState.widget_sample) = .error "boom") ∧
    _handle_sample_change "01/01/2024" (fun _ => .error "boom") loadedState =
      { state := { loadedState with
                     sample_lookup_warning := none,
                     sample_row_index := none,
                     sample_lookup_status := some "error",
                     sample_lookup_message := "Erro ao buscar amostra: " ++ "boom" },
        queries := 1 } :=
  ⟨by decide, rfl,
    handle_query_error_state "01/01/2024" "boom" (fun _ => .error "boom")
      loadedState (by decide) rfl⟩
